import Mathlib

/-
  Verification development for harbour-filters, src/src/models/filteredimage.cpp.

  The file models:
  - QImage as a pixel grid (width, height, pixel lookup), with the Qt
    primitives used by the code: mirrored(h, v) and transformed by a
    +90 / -90 degree QTransform rotation (positive angles rotate
    clockwise in Qt's y-down coordinate system);
  - the static rotate(src, orientation) helper (EXIF orientation
    correction), with the orientation carried as its underlying integer
    code (NemoImageMetadata: TopLeft = 1 .. LeftBottom = 8) so that the
    switch's default branch for unrecognized codes is captured;
  - the FilteredImage item's mutable fields as a state record, its
    member functions as state transformers that also return the list of
    emitted Qt signals and the calls made to the external
    AbstractImageFilter collaborator.  The filter collaborator is kept
    abstract: a type F of filter object identities (pointer identity)
    plus an interface giving each filter's parameterList() and the
    boolean acceptance of applyFilter(image).  External inputs
    (the decoded image, the metadata orientation, the current
    millisecond timestamp) are passed as explicit arguments.
-/

namespace HarbourFilters

/-- Pixel grid model of QImage: dimensions plus a pixel lookup function.
Qt's QImage reports isNull for an image with no data; a zero-width or
zero-height image has no data.  The default-constructed QImage() is the
0x0 grid. -/
structure QImage where
  width : Nat
  height : Nat
  pix : Nat → Nat → Nat

/-- QImage::isNull: true when the image holds no pixel data. -/
def QImage.isNull (img : QImage) : Bool :=
  img.width == 0 || img.height == 0

/-- The default-constructed QImage(), a null image. -/
def QImage.nullImage : QImage :=
  ⟨0, 0, fun _ _ => 0⟩

/-- QImage::mirrored(horizontal, vertical): flips the pixel grid along the
requested axes; dimensions are unchanged. -/
def QImage.mirrored (img : QImage) (h v : Bool) : QImage :=
  ⟨img.width, img.height, fun x y =>
    img.pix (if h then img.width - 1 - x else x)
            (if v then img.height - 1 - y else y)⟩

/-- QImage::transformed with QTransform rotate(90.0): a positive Qt angle
rotates clockwise on screen (y axis points down).  Destination pixel
(x, y) comes from source pixel (y, height - 1 - x); width and height
swap. -/
def QImage.transformed90CW (img : QImage) : QImage :=
  ⟨img.height, img.width, fun x y => img.pix y (img.height - 1 - x)⟩

/-- QImage::transformed with QTransform rotate(-90.0): counterclockwise
quarter turn.  Destination pixel (x, y) comes from source pixel
(width - 1 - y, x); width and height swap. -/
def QImage.transformed90CCW (img : QImage) : QImage :=
  ⟨img.height, img.width, fun x y => img.pix (img.width - 1 - y) x⟩

/-- The static rotate(src, orientation) helper of filteredimage.cpp.
The orientation is the NemoImageMetadata code: TopLeft = 1, TopRight = 2,
BottomRight = 3, BottomLeft = 4, LeftTop = 5, RightTop = 6,
RightBottom = 7, LeftBottom = 8.  The C++ switch handles codes 2..8 and
lets TopLeft and every unrecognized code fall to the default branch,
which returns the source unchanged. -/
def rotate (src : QImage) (orientation : Nat) : QImage :=
  match orientation with
  | 2 => src.mirrored true false
  | 3 => src.mirrored true true
  | 4 => src.mirrored false true
  | 5 => (src.transformed90CW).mirrored true false
  | 6 => src.transformed90CW
  | 7 => (src.transformed90CCW).mirrored true false
  | 8 => src.transformed90CCW
  | _ => src

/-- Primitive image operations the rotate helper is built from: axis
mirrors and quarter-turn rotations. -/
inductive ImgOp where
  | mirror (h v : Bool)
  | rot90cw
  | rot90ccw
deriving DecidableEq

/-- Semantics of a primitive image operation. -/
def ImgOp.apply : ImgOp → QImage → QImage
  | .mirror h v, img => img.mirrored h v
  | .rot90cw, img => img.transformed90CW
  | .rot90ccw, img => img.transformed90CCW

/-- Apply a sequence of primitive operations left to right. -/
def applyOps (ops : List ImgOp) (img : QImage) : QImage :=
  ops.foldl (fun i op => op.apply i) img

/-- The sequence of primitive operations each branch of the rotate
switch performs, in source order. -/
def orientationOps (orientation : Nat) : List ImgOp :=
  match orientation with
  | 2 => [.mirror true false]
  | 3 => [.mirror true true]
  | 4 => [.mirror false true]
  | 5 => [.rot90cw, .mirror true false]
  | 6 => [.rot90cw]
  | 7 => [.rot90ccw, .mirror true false]
  | 8 => [.rot90ccw]
  | _ => []

/-- The geometric inverse of each orientation's operation sequence:
the same primitives, inverted and applied in reverse order. -/
def inverseOps (orientation : Nat) : List ImgOp :=
  match orientation with
  | 2 => [.mirror true false]
  | 3 => [.mirror true true]
  | 4 => [.mirror false true]
  | 5 => [.mirror true false, .rot90ccw]
  | 6 => [.rot90ccw]
  | 7 => [.mirror true false, .rot90cw]
  | 8 => [.rot90cw]
  | _ => []

/-- Whether a primitive operation is a quarter-turn. -/
def ImgOp.isRot : ImgOp → Bool
  | .rot90cw => true
  | .rot90ccw => true
  | .mirror _ _ => false

/-- Whether a primitive operation is a flip. -/
def ImgOp.isFlip : ImgOp → Bool
  | .mirror _ _ => true
  | _ => false

/-- An orientation case composes a quarter-turn with a flip when its
operation sequence contains both kinds of primitive. -/
def composesRotAndFlip (orientation : Nat) : Bool :=
  (orientationOps orientation).any ImgOp.isRot &&
    (orientationOps orientation).any ImgOp.isFlip

/-- Two images hold the same pixel grid: equal dimensions and equal
pixels at every in-bounds coordinate. -/
def sameGrid (a b : QImage) : Prop :=
  a.width = b.width ∧ a.height = b.height ∧
    ∀ x, x < a.width → ∀ y, y < a.height → a.pix x y = b.pix x y

/-- Interface of the external AbstractImageFilter collaborator, indexed
by a type F of filter object identities: parameterList() and the boolean
acceptance returned by applyFilter(image).  The asynchronous
filterApplied(image) result is delivered by the environment through
FilteredImage.filterApplied. -/
structure FilterIface (F : Type) where
  parameterList : F → List String
  applyFilterAccepts : F → QImage → Bool

/-- Observable outputs of a FilteredImage member function: the Qt
signals it emits and the calls it makes on the filter collaborator. -/
inductive Event (F : Type) where
  | sourceChanged (source : String)
  | imageChanged (img : QImage)
  | isApplyingFilterChanged (b : Bool)
  | imageSaved (filename : String)
  | resetParameters (f : F)
  | requestApply (f : F) (img : QImage)

/-- Mutable fields of the FilteredImage item: m_source, m_image (the
base image), m_filteredImage, m_filter (null pointer = none),
m_isApplyingFilter, m_imageChanged (the dirty flag), and the item's
implicit size. -/
structure FilteredImageState (F : Type) where
  source : String
  image : QImage
  filteredImage : QImage
  filter : Option F
  isApplyingFilter : Bool
  imageChanged : Bool
  implicitWidth : Nat
  implicitHeight : Nat

variable {F : Type}

/-- FilteredImage::setIsApplyingFilter: writes the flag and emits
isApplyingFilterChanged only when the value actually changes. -/
def FilteredImage.setIsApplyingFilter (s : FilteredImageState F) (value : Bool) :
    FilteredImageState F × List (Event F) :=
  if s.isApplyingFilter ≠ value then
    ({ s with isApplyingFilter := value }, [.isApplyingFilterChanged value])
  else
    (s, [])

/-- FilteredImage::setSource: no-op when the string equals the current
source; otherwise stores the source, reads the image (the decoded image
and the metadata orientation code are environment inputs), applies the
orientation correction when the orientation is not TopLeft (code 1),
sets the implicit size from the corrected image, marks the display
dirty, and emits sourceChanged then imageChanged.  m_filteredImage,
m_filter and m_isApplyingFilter are not touched. -/
def FilteredImage.setSource (s : FilteredImageState F) (source : String)
    (decoded : QImage) (orientation : Nat) :
    FilteredImageState F × List (Event F) :=
  if s.source ≠ source then
    let img := if orientation ≠ 1 then rotate decoded orientation else decoded
    ({ s with
        source := source
        image := img
        implicitWidth := img.width
        implicitHeight := img.height
        imageChanged := true },
      [.sourceChanged source, .imageChanged img])
  else
    (s, [])

/-- FilteredImage::image accessor: the filtered image when it is
non-null, otherwise the base image. -/
def FilteredImage.image (s : FilteredImageState F) : QImage :=
  if s.filteredImage.isNull then s.image else s.filteredImage

/-- Buffer selection of FilteredImage::updatePaintNode: the texture is
created from m_filteredImage when it is non-null, else from m_image. -/
def FilteredImage.updatePaintNodeImage (s : FilteredImageState F) : QImage :=
  if !s.filteredImage.isNull then s.filteredImage else s.image

/-- FilteredImage::resetFilter: asks the attached filter (if any) to
reset its parameters, sets m_filteredImage to the base image, marks the
display dirty, emits imageChanged, and clears the applying flag through
setIsApplyingFilter(false). -/
def FilteredImage.resetFilter (s : FilteredImageState F) :
    FilteredImageState F × List (Event F) :=
  let resetEvents : List (Event F) :=
    match s.filter with
    | some f => [.resetParameters f]
    | none => []
  let s1 := { s with filteredImage := s.image, imageChanged := true }
  let r2 := FilteredImage.setIsApplyingFilter s1 false
  (r2.1, resetEvents ++ [.imageChanged s1.filteredImage] ++ r2.2)

/-- FilteredImage::applyFilter: stores the new filter pointer (the
signal disconnect/connect bookkeeping has no modelled state), then: a
non-null filter with an empty parameter list gets an immediate
applyFilter(m_image) request, and the applying flag is set only when the
filter accepts; a non-null filter with parameters, or a null filter,
goes through resetFilter instead. -/
def FilteredImage.applyFilter (iface : FilterIface F) (s : FilteredImageState F)
    (filter : Option F) : FilteredImageState F × List (Event F) :=
  let s1 := { s with filter := filter }
  match filter with
  | some f =>
    if (iface.parameterList f).isEmpty then
      if iface.applyFilterAccepts f s1.image then
        let r2 := FilteredImage.setIsApplyingFilter s1 true
        (r2.1, .requestApply f s1.image :: r2.2)
      else
        (s1, [.requestApply f s1.image])
    else
      let r2 := FilteredImage.resetFilter s1
      (r2.1, r2.2)
  | none =>
    let r2 := FilteredImage.resetFilter s1
    (r2.1, r2.2)

/-- FilteredImage::reApplyFilter: re-requests application against the
base image with the currently attached filter, if any; the applying flag
is set only on acceptance. -/
def FilteredImage.reApplyFilter (iface : FilterIface F)
    (s : FilteredImageState F) : FilteredImageState F × List (Event F) :=
  match s.filter with
  | some f =>
    if iface.applyFilterAccepts f s.image then
      let r2 := FilteredImage.setIsApplyingFilter s true
      (r2.1, .requestApply f s.image :: r2.2)
    else
      (s, [.requestApply f s.image])
  | none => (s, [])

/-- FilteredImage::applyCurrentFilter: when the filtered image is
non-null, copies it into the base image and clears the filtered image to
the default-constructed QImage(); otherwise does nothing.  Emits no
signal either way. -/
def FilteredImage.applyCurrentFilter (s : FilteredImageState F) :
    FilteredImageState F × List (Event F) :=
  if !s.filteredImage.isNull then
    ({ s with image := s.filteredImage, filteredImage := QImage.nullImage }, [])
  else
    (s, [])

/-- FilteredImage::saveImage: commits through applyCurrentFilter, then
writes the base image as (current millisecond epoch).jpg under the
pictures/filters directory (the filesystem write is external and its
result unchecked), and emits imageSaved with the generated filename.
The timestamp is an environment input. -/
def FilteredImage.saveImage (s : FilteredImageState F)
    (currentMSecsSinceEpoch : Nat) : FilteredImageState F × List (Event F) :=
  let r1 := FilteredImage.applyCurrentFilter s
  let filename := toString currentMSecsSinceEpoch ++ ".jpg"
  (r1.1, r1.2 ++ [.imageSaved filename])

/-- FilteredImage::filterApplied slot: stores the asynchronous filter
result as the filtered image, marks the display dirty, emits
imageChanged, and clears the applying flag. -/
def FilteredImage.filterApplied (s : FilteredImageState F) (image : QImage) :
    FilteredImageState F × List (Event F) :=
  let s1 := { s with filteredImage := image, imageChanged := true }
  let r2 := FilteredImage.setIsApplyingFilter s1 false
  (r2.1, .imageChanged image :: r2.2)

/-- A filename of the form (decimal integer).jpg. -/
def isTimestampJpgName (name : String) : Prop :=
  ∃ n : Nat, name = toString n ++ ".jpg"

/-- A small concrete non-square image used as a witness input. -/
def testImg : QImage := ⟨2, 3, fun x y => x + 10 * y⟩

/-- The eight NemoImageMetadata orientation codes. -/
def orientationCodes : List Nat := [1, 2, 3, 4, 5, 6, 7, 8]

/-- A concrete 2x2 non-null image used in counterexamples and witnesses. -/
def imgA : QImage := ⟨2, 2, fun x y => x + 2 * y⟩

/-- A filter interface over Nat identities where every filter has no
parameters and declines every application request. -/
def declineIface : FilterIface Nat :=
  ⟨fun _ => [], fun _ _ => false⟩

/-- A filter interface over Nat identities where every filter exposes
one parameter. -/
def paramIface : FilterIface Nat :=
  ⟨fun _ => ["level"], fun _ _ => true⟩

/-- A concrete item state with filter object 0 attached and no filtered
image. -/
def stateWithFilter0 : FilteredImageState Nat :=
  { source := "a", image := imgA, filteredImage := QImage.nullImage,
    filter := some 0, isApplyingFilter := false, imageChanged := false,
    implicitWidth := 2, implicitHeight := 2 }

/-- A concrete item state holding a non-null filtered image. -/
def stateWithFiltered : FilteredImageState Nat :=
  { source := "a", image := imgA, filteredImage := imgA,
    filter := none, isApplyingFilter := false, imageChanged := false,
    implicitWidth := 2, implicitHeight := 2 }

/-- The default-constructed QImage() is null. -/
theorem QImage.nullImage_isNull : QImage.nullImage.isNull = true := rfl

/-- C8: the orientation transform is a total function; for the identity
orientation (TopLeft, code 1) it returns the input unchanged, and any
unrecognized code falls to the switch's default branch, which also
returns the input unchanged. -/
theorem rotate_identity_and_unrecognized (img : QImage) (code : Nat)
    (h : code = 1 ∨ code = 0 ∨ 9 ≤ code) : rotate img code = img := by
  rcases h with h | h | h
  · subst h; rfl
  · subst h; rfl
  · obtain ⟨n, rfl⟩ : ∃ n, code = n + 9 := ⟨code - 9, by omega⟩
    rfl

/-- Witness for rotate_identity_and_unrecognized at the unrecognized
code 12. -/
theorem rotate_identity_and_unrecognized_witness :
    ((12 : Nat) = 1 ∨ (12 : Nat) = 0 ∨ 9 ≤ (12 : Nat)) ∧ rotate testImg 12 = testImg :=
  ⟨by omega, rotate_identity_and_unrecognized testImg 12 (by omega)⟩

/-- C7: for each of the eight orientation codes, applying the
orientation transform and then its geometric inverse returns the
original pixel grid; at code 2 this is exactly two successive
horizontal flips being the identity on the pixel grid. -/
theorem rotate_inverse_roundtrip (code : Nat) (h1 : 1 ≤ code) (h2 : code ≤ 8)
    (img : QImage) : sameGrid (applyOps (inverseOps code) (rotate img code)) img := by
  interval_cases code <;>
    refine ⟨rfl, rfl, fun x hx y hy => ?_⟩ <;>
    have hx2 : x < img.width := hx <;>
    have hy2 : y < img.height := hy <;>
    simp only [applyOps, inverseOps, rotate, List.foldl, ImgOp.apply,
      QImage.mirrored, QImage.transformed90CW, QImage.transformed90CCW,
      eq_self_iff_true, Bool.false_eq_true, if_true, if_false] <;>
    first
      | rfl
      | (congr 1 <;> omega)

/-- Witness for rotate_inverse_roundtrip at code 2 (horizontal flip). -/
theorem rotate_inverse_roundtrip_witness :
    1 ≤ (2 : Nat) ∧ (2 : Nat) ≤ 8 ∧
      sameGrid (applyOps (inverseOps 2) (rotate testImg 2)) testImg :=
  ⟨by omega, by omega, rotate_inverse_roundtrip 2 (by omega) (by omega) testImg⟩

/-- C6 counterexample: among the eight orientation cases, the number
that compose a quarter-turn rotation with a flip is two (LeftTop = 5 and
RightBottom = 7), not one. -/
theorem rotate_compose_count_not_one :
    orientationCodes.countP composesRotAndFlip = 2 ∧
      orientationCodes.countP composesRotAndFlip ≠ 1 := by
  constructor
  · decide
  · decide

/-- C6 amended: the orientation transform factors through sequences of
primitive operations that are only axis flips and quarter-turn
rotations, and exactly two of the eight orientation cases (codes 5 and
7) compose a rotation with a flip. -/
theorem rotate_only_flips_and_quarter_turns :
    (∀ (img : QImage) (code : Nat),
        rotate img code = applyOps (orientationOps code) img) ∧
      orientationCodes.countP composesRotAndFlip = 2 ∧
      composesRotAndFlip 5 = true ∧ composesRotAndFlip 7 = true := by
  refine ⟨?_, by decide, by decide, by decide⟩
  intro img code
  match code with
  | 0 => rfl
  | 1 => rfl
  | 2 => rfl
  | 3 => rfl
  | 4 => rfl
  | 5 => rfl
  | 6 => rfl
  | 7 => rfl
  | 8 => rfl
  | n + 9 => rfl

/-- State effect of resetFilter: the filtered image becomes the base
image, the dirty flag is set, and the applying flag is cleared; nothing
else changes. -/
theorem FilteredImage.resetFilter_state (s : FilteredImageState F) :
    (FilteredImage.resetFilter s).1 =
      { s with filteredImage := s.image, imageChanged := true,
               isApplyingFilter := false } := by
  obtain ⟨src, img, fimg, fil, appl, ich, iw, ih⟩ := s
  cases appl <;>
    simp [FilteredImage.resetFilter, FilteredImage.setIsApplyingFilter]

/-- resetFilter never sends an application request to any filter. -/
theorem FilteredImage.resetFilter_no_request (s : FilteredImageState F)
    (g : F) (img : QImage) :
    Event.requestApply g img ∉ (FilteredImage.resetFilter s).2 := by
  obtain ⟨src, bimg, fimg, fil, appl, ich, iw, ih⟩ := s
  cases appl <;> cases fil <;>
    simp [FilteredImage.resetFilter, FilteredImage.setIsApplyingFilter]

/-- C2 amended: when a parameterless filter f declines the application
request, the applying flag is not set, no signal is emitted, and every
field of the state except the attached-filter reference (which has
already been replaced by f) is unchanged. -/
theorem applyFilter_declined_state (iface : FilterIface F)
    (s : FilteredImageState F) (f : F)
    (hp : iface.parameterList f = [])
    (hd : iface.applyFilterAccepts f s.image = false) :
    (FilteredImage.applyFilter iface s (some f)).1 = { s with filter := some f } ∧
    (FilteredImage.applyFilter iface s (some f)).2 =
      [Event.requestApply f s.image] := by
  unfold FilteredImage.applyFilter
  simp [hp, hd]

/-- Witness for applyFilter_declined_state on a concrete declining
filter. -/
theorem applyFilter_declined_state_witness :
    declineIface.parameterList 1 = [] ∧
    declineIface.applyFilterAccepts 1 stateWithFilter0.image = false ∧
    (FilteredImage.applyFilter declineIface stateWithFilter0 (some 1)).1 =
      { stateWithFilter0 with filter := some 1 } :=
  ⟨rfl, rfl,
    (applyFilter_declined_state declineIface stateWithFilter0 1 rfl rfl).1⟩

/-- C2 counterexample: calling applyFilter with a declining filter f
different from the currently attached one does change the component's
state: the attached-filter reference moves from the old filter to f,
even though f declined. -/
theorem applyFilter_declined_changes_filter :
    declineIface.applyFilterAccepts 1 stateWithFilter0.image = false ∧
    declineIface.parameterList 1 = [] ∧
    stateWithFilter0.filter = some 0 ∧
    (FilteredImage.applyFilter declineIface stateWithFilter0 (some 1)).1.filter =
      some 1 ∧
    (FilteredImage.applyFilter declineIface stateWithFilter0 (some 1)).1 ≠
      stateWithFilter0 := by
  refine ⟨rfl, rfl, rfl, rfl, ?_⟩
  intro h
  have h2 : (some 1 : Option Nat) = some 0 :=
    congrArg FilteredImageState.filter h
  cases h2

/-- C3: attaching a non-null filter with a non-empty parameter list
sends it no application request; the state goes straight through
resetFilter: the displayed buffer equals the base image, the applying
flag is false, and the filtered buffer was set to the base image. -/
theorem applyFilter_parameterized_resets (iface : FilterIface F)
    (s : FilteredImageState F) (f : F)
    (hp : iface.parameterList f ≠ []) :
    FilteredImage.image (FilteredImage.applyFilter iface s (some f)).1 = s.image ∧
    (FilteredImage.applyFilter iface s (some f)).1.isApplyingFilter = false ∧
    (FilteredImage.applyFilter iface s (some f)).1.filteredImage = s.image ∧
    ∀ (g : F) (img : QImage),
      Event.requestApply g img ∉ (FilteredImage.applyFilter iface s (some f)).2 := by
  have hL : (iface.parameterList f).isEmpty = false := by
    cases h : iface.parameterList f with
    | nil => exact absurd h hp
    | cons a t => rfl
  have hstate : (FilteredImage.applyFilter iface s (some f)).1 =
      { s with filter := some f, filteredImage := s.image,
               imageChanged := true, isApplyingFilter := false } := by
    unfold FilteredImage.applyFilter
    simp only [hL, Bool.false_eq_true, if_false]
    exact FilteredImage.resetFilter_state _
  have hev : (FilteredImage.applyFilter iface s (some f)).2 =
      (FilteredImage.resetFilter { s with filter := some f }).2 := by
    unfold FilteredImage.applyFilter
    simp only [hL, Bool.false_eq_true, if_false]
  refine ⟨?_, ?_, ?_, ?_⟩
  · rw [hstate]
    unfold FilteredImage.image
    split <;> rfl
  · rw [hstate]
  · rw [hstate]
  · intro g img
    rw [hev]
    exact FilteredImage.resetFilter_no_request _ g img

/-- Witness for applyFilter_parameterized_resets on a concrete
parameterized filter. -/
theorem applyFilter_parameterized_resets_witness :
    paramIface.parameterList 1 ≠ [] ∧
    FilteredImage.image
        (FilteredImage.applyFilter paramIface stateWithFilter0 (some 1)).1 =
      stateWithFilter0.image ∧
    (FilteredImage.applyFilter paramIface stateWithFilter0 (some 1)).1.isApplyingFilter =
      false ∧
    (FilteredImage.applyFilter paramIface stateWithFilter0 (some 1)).1.filteredImage =
      stateWithFilter0.image ∧
    Event.requestApply 1 stateWithFilter0.image ∉
      (FilteredImage.applyFilter paramIface stateWithFilter0 (some 1)).2 := by
  have h :=
    applyFilter_parameterized_resets paramIface stateWithFilter0 1
      (by simp [paramIface])
  exact ⟨by simp [paramIface], h.1, h.2.1, h.2.2.1,
    h.2.2.2 1 stateWithFilter0.image⟩

end HarbourFilters

namespace HarbourFilters

variable {F : Type}

/-- C1 counterexample: setSource with a new source string does not clear
the filtered image: starting from a state whose filtered image is
non-null, after setSource with a different source the filtered image is
still the old non-null buffer. -/
theorem setSource_keeps_filteredImage :
    stateWithFiltered.source ≠ "b" ∧
    stateWithFiltered.filteredImage.isNull = false ∧
    (FilteredImage.setSource stateWithFiltered "b" imgA 1).1.filteredImage.isNull =
      false ∧
    (FilteredImage.setSource stateWithFiltered "b" imgA 1).1.filteredImage =
      stateWithFiltered.filteredImage := by
  refine ⟨by decide, rfl, rfl, rfl⟩

/-- C1 amended: after setSource with a source string different from the
current one, the base image is replaced by the orientation-corrected
decode, the implicit size tracks it, the display is marked dirty, and a
source-changed then an image-changed notification are emitted; the
filtered image, the attached filter and the applying flag are left
unchanged (filter state is not reset). -/
theorem setSource_new_source_behavior (s : FilteredImageState F)
    (source : String) (decoded : QImage) (orientation : Nat)
    (h : s.source ≠ source) :
    (FilteredImage.setSource s source decoded orientation).1 =
      { s with
          source := source
          image := if orientation ≠ 1 then rotate decoded orientation else decoded
          implicitWidth :=
            (if orientation ≠ 1 then rotate decoded orientation else decoded).width
          implicitHeight :=
            (if orientation ≠ 1 then rotate decoded orientation else decoded).height
          imageChanged := true } ∧
    (FilteredImage.setSource s source decoded orientation).1.filteredImage =
      s.filteredImage ∧
    (FilteredImage.setSource s source decoded orientation).1.filter = s.filter ∧
    (FilteredImage.setSource s source decoded orientation).1.isApplyingFilter =
      s.isApplyingFilter ∧
    (FilteredImage.setSource s source decoded orientation).2 =
      [Event.sourceChanged source,
       Event.imageChanged
         (if orientation ≠ 1 then rotate decoded orientation else decoded)] := by
  unfold FilteredImage.setSource
  simp [h]

/-- Witness for setSource_new_source_behavior on a concrete state and a
TopLeft-oriented decode. -/
theorem setSource_new_source_behavior_witness :
    stateWithFiltered.source ≠ "b" ∧
    ((FilteredImage.setSource stateWithFiltered "b" imgA 1).1 =
        { stateWithFiltered with
            source := "b"
            image := if (1 : Nat) ≠ 1 then rotate imgA 1 else imgA
            implicitWidth := (if (1 : Nat) ≠ 1 then rotate imgA 1 else imgA).width
            implicitHeight := (if (1 : Nat) ≠ 1 then rotate imgA 1 else imgA).height
            imageChanged := true } ∧
      (FilteredImage.setSource stateWithFiltered "b" imgA 1).1.filteredImage =
        stateWithFiltered.filteredImage ∧
      (FilteredImage.setSource stateWithFiltered "b" imgA 1).1.filter =
        stateWithFiltered.filter ∧
      (FilteredImage.setSource stateWithFiltered "b" imgA 1).1.isApplyingFilter =
        stateWithFiltered.isApplyingFilter ∧
      (FilteredImage.setSource stateWithFiltered "b" imgA 1).2 =
        [Event.sourceChanged "b",
         Event.imageChanged (if (1 : Nat) ≠ 1 then rotate imgA 1 else imgA)]) :=
  ⟨by decide, setSource_new_source_behavior stateWithFiltered "b" imgA 1 (by decide)⟩

/-- C4: saveImage first commits through applyCurrentFilter (after the
call the filtered image is absent), leaves no other state change, and
emits exactly one imageSaved notification whose filename is the
millisecond timestamp rendered as a decimal integer followed by
".jpg". -/
theorem saveImage_commits_and_saves (s : FilteredImageState F) (now : Nat) :
    (FilteredImage.saveImage s now).1 = (FilteredImage.applyCurrentFilter s).1 ∧
    (FilteredImage.saveImage s now).1.filteredImage.isNull = true ∧
    (FilteredImage.saveImage s now).2 =
      [Event.imageSaved (toString now ++ ".jpg")] ∧
    isTimestampJpgName (toString now ++ ".jpg") := by
  refine ⟨rfl, ?_, ?_, ⟨now, rfl⟩⟩
  · cases h : s.filteredImage.isNull with
    | false =>
      have hc : (FilteredImage.saveImage s now).1.filteredImage =
          QImage.nullImage := by
        simp [FilteredImage.saveImage, FilteredImage.applyCurrentFilter, h]
      rw [hc, QImage.nullImage_isNull]
    | true =>
      have hc : (FilteredImage.saveImage s now).1.filteredImage =
          s.filteredImage := by
        simp [FilteredImage.saveImage, FilteredImage.applyCurrentFilter, h]
      rw [hc, h]
  · cases h : s.filteredImage.isNull with
    | false => simp [FilteredImage.saveImage, FilteredImage.applyCurrentFilter, h]
    | true => simp [FilteredImage.saveImage, FilteredImage.applyCurrentFilter, h]

/-- C5: applyCurrentFilter with a filtered image present copies it into
the base image and clears the filtered image; with no filtered image it
is a no-op; it emits no notification; and running it twice equals
running it once. -/
theorem applyCurrentFilter_spec (s : FilteredImageState F) :
    (s.filteredImage.isNull = false →
      (FilteredImage.applyCurrentFilter s).1.image = s.filteredImage ∧
      (FilteredImage.applyCurrentFilter s).1.filteredImage = QImage.nullImage) ∧
    (s.filteredImage.isNull = true →
      (FilteredImage.applyCurrentFilter s).1 = s) ∧
    (FilteredImage.applyCurrentFilter s).2 = [] ∧
    FilteredImage.applyCurrentFilter (FilteredImage.applyCurrentFilter s).1 =
      FilteredImage.applyCurrentFilter s := by
  cases h : s.filteredImage.isNull with
  | false =>
    refine ⟨fun _ => ⟨?_, ?_⟩, fun hf => by simp at hf, ?_, ?_⟩
    · simp [FilteredImage.applyCurrentFilter, h]
    · simp [FilteredImage.applyCurrentFilter, h]
    · simp [FilteredImage.applyCurrentFilter, h]
    · simp [FilteredImage.applyCurrentFilter, h, QImage.nullImage_isNull]
  | true =>
    refine ⟨fun hf => by simp at hf, fun _ => ?_, ?_, ?_⟩
    · simp [FilteredImage.applyCurrentFilter, h]
    · simp [FilteredImage.applyCurrentFilter, h]
    · simp [FilteredImage.applyCurrentFilter, h]

/-- Witness for applyCurrentFilter_spec on a concrete state with a
non-null filtered image. -/
theorem applyCurrentFilter_spec_witness :
    stateWithFiltered.filteredImage.isNull = false ∧
    (FilteredImage.applyCurrentFilter stateWithFiltered).1.image =
      stateWithFiltered.filteredImage ∧
    (FilteredImage.applyCurrentFilter stateWithFiltered).1.filteredImage =
      QImage.nullImage :=
  ⟨rfl, ((applyCurrentFilter_spec stateWithFiltered).1 rfl).1,
    ((applyCurrentFilter_spec stateWithFiltered).1 rfl).2⟩

/-- C9: the image accessor and the paint-node buffer selection agree in
every state, and both select the filtered image exactly when it is
non-null, the base image otherwise. -/
theorem displayed_buffer_selection (s : FilteredImageState F) :
    FilteredImage.image s = FilteredImage.updatePaintNodeImage s ∧
    (s.filteredImage.isNull = false →
      FilteredImage.image s = s.filteredImage ∧
      FilteredImage.updatePaintNodeImage s = s.filteredImage) ∧
    (s.filteredImage.isNull = true →
      FilteredImage.image s = s.image ∧
      FilteredImage.updatePaintNodeImage s = s.image) := by
  cases h : s.filteredImage.isNull <;>
    simp [FilteredImage.image, FilteredImage.updatePaintNodeImage, h]

/-- Witness for displayed_buffer_selection on a concrete state with a
non-null filtered image. -/
theorem displayed_buffer_selection_witness :
    stateWithFiltered.filteredImage.isNull = false ∧
    FilteredImage.image stateWithFiltered = stateWithFiltered.filteredImage ∧
    FilteredImage.updatePaintNodeImage stateWithFiltered =
      stateWithFiltered.filteredImage :=
  ⟨rfl, ((displayed_buffer_selection stateWithFiltered).2.1 rfl).1,
    ((displayed_buffer_selection stateWithFiltered).2.1 rfl).2⟩

/-- C10: after resetFilter on a state whose base image is non-null, the
filtered image is present and equal to the base image, so an immediately
following applyCurrentFilter takes its copy branch: it copies the buffer
into the base image and clears the filtered image. -/
theorem resetFilter_then_commit (s : FilteredImageState F)
    (h : s.image.isNull = false) :
    (FilteredImage.resetFilter s).1.filteredImage = s.image ∧
    (FilteredImage.resetFilter s).1.filteredImage.isNull = false ∧
    (FilteredImage.applyCurrentFilter (FilteredImage.resetFilter s).1).1.image =
      s.image ∧
    (FilteredImage.applyCurrentFilter (FilteredImage.resetFilter s).1).1.filteredImage =
      QImage.nullImage := by
  rw [FilteredImage.resetFilter_state]
  refine ⟨rfl, h, ?_, ?_⟩
  · simp [FilteredImage.applyCurrentFilter, h]
  · simp [FilteredImage.applyCurrentFilter, h]

/-- Witness for resetFilter_then_commit on a concrete state with a
non-null base image. -/
theorem resetFilter_then_commit_witness :
    stateWithFilter0.image.isNull = false ∧
    (FilteredImage.resetFilter stateWithFilter0).1.filteredImage =
      stateWithFilter0.image ∧
    (FilteredImage.applyCurrentFilter
        (FilteredImage.resetFilter stateWithFilter0).1).1.filteredImage =
      QImage.nullImage :=
  ⟨rfl, (resetFilter_then_commit stateWithFilter0 rfl).1,
    (resetFilter_then_commit stateWithFilter0 rfl).2.2.2⟩

end HarbourFilters
